import Mathlib

/-!
A shallow embedding of the priority-lane job scheduler, the ETA estimator
and the Bayesian experiment engine of the video-processing backend
(source files `app/models.py`, `app/models_ab.py`, `app/services/eta.py`,
`app/services/ab_logic.py`, `app/routers/ab.py`, `app/routers/jobs.py`).

Python floats are embedded as exact rationals, Python ints as `Int`,
database rows as Lean structures, and the database session as an explicit
store value threaded through the operations.  Definitions that carry
`Follows the spec's words` or `Modelled from the spec` in their doc
comment are transcribed from the specification text (for refinement
comparison, or because the corresponding operation has no implementation
under `src/`); every other definition is transcribed from the source.
-/

/-- Job lifecycle states, from `app/models.py` (`class JobState`). -/
inductive JobState where
  | CREATED
  | QUEUED
  | INGESTING
  | TRANSCRIBING
  | ANALYZING
  | EDITING
  | RENDERING
  | UPLOADING
  | COMPLETED
  | FAILED
  | TIMED_OUT
  | CANCELED
deriving DecidableEq, Repr

/-- Target metric of an experiment, from `ab_logic.py` (`TargetMetric`). -/
inductive TargetMetric where
  | CTR
  | Watch3s
  | Watch30s
deriving DecidableEq, Repr

/-- Counters and stored posterior parameters of one `variant_stats` row
(`app/models_ab.py`, `class VariantStat`). -/
structure VariantStat where
  impressions : Int
  clicks : Int
  watch3s : Int
  watch30s : Int
  alpha : Int
  beta : Int
deriving DecidableEq, Repr

/-- One item of a metrics batch: the four deltas read with
`row.get(..., 0)` in `ingest_metrics` (`ab.py:68`). -/
structure MetricsDelta where
  impressionsDelta : Int
  clicksDelta : Int
  watch3sDelta : Int
  watch30sDelta : Int
deriving DecidableEq, Repr

/-- Counter of `st` selected by the target metric: the
`st.clicks if exp.target_metric=="CTR" else (st.watch3s if ... else
st.watch30s)` chains of `ab.py:70-71` and `ab.py:86`. -/
def successesOf (m : TargetMetric) (st : VariantStat) : Int :=
  match m with
  | .CTR => st.clicks
  | .Watch3s => st.watch3s
  | .Watch30s => st.watch30s

/-- Delta selected by the target metric (`successes_now`, `ab.py:69`). -/
def deltaSuccesses (m : TargetMetric) (row : MetricsDelta) : Int :=
  match m with
  | .CTR => row.clicksDelta
  | .Watch3s => row.watch3sDelta
  | .Watch30s => row.watch30sDelta

/-- Effect of one item of `ingest_metrics` (`ab.py:64-75`) on the matching
variant's stats row, for an experiment with priors `pa`, `pb` and target
metric `m`. -/
def ingestStep (pa pb : Int) (m : TargetMetric) (st : VariantStat)
    (row : MetricsDelta) : VariantStat :=
  let imp := row.impressionsDelta
  let successes_now := deltaSuccesses m row
  let failures := (st.impressions + imp) - (successesOf m st + successes_now)
  let alpha := pa + (successesOf m st + successes_now)
  let beta := pb + max failures 0
  { impressions := st.impressions + imp
    clicks := st.clicks + row.clicksDelta
    watch3s := st.watch3s + row.watch3sDelta
    watch30s := st.watch30s + row.watch30sDelta
    alpha := alpha
    beta := beta }

/-- Stats row written by `create_experiment` (`ab.py:41`): zero counters and
`alpha = beta = 1`; the endpoint always creates experiments with the default
priors `prior_alpha = prior_beta = 1` (`app/models_ab.py:22-23`). -/
def initStat : VariantStat :=
  { impressions := 0, clicks := 0, watch3s := 0, watch30s := 0
    alpha := 1, beta := 1 }

/-- Posterior invariant of spec section 3: `alpha = priorAlpha + successes`
and `beta = priorBeta + max(impressions - successes, 0)`. -/
def PosteriorInv (pa pb : Int) (m : TargetMetric) (st : VariantStat) : Prop :=
  st.alpha = pa + successesOf m st ∧
  st.beta = pb + max (st.impressions - successesOf m st) 0

/-- Posterior recomputed by the decide endpoint from the stored counters
(`ab.py:86-87`). -/
def decidePosterior (pa pb : Int) (m : TargetMetric) (st : VariantStat) :
    Int × Int :=
  (pa + successesOf m st, pb + max (st.impressions - successesOf m st) 0)

/-- Posterior handed to the allocation and promotion logic
(`ab_logic.py`, `dataclass VariantPosterior`). -/
structure VariantPosterior where
  variant_id : String
  impressions : Int
  successes : Int
  alpha : ℚ
  beta : ℚ
deriving DecidableEq, Repr

/-- Posterior mean `alpha / (alpha + beta)` (`ab_logic.py:10-11`). -/
def VariantPosterior.mean (v : VariantPosterior) : ℚ :=
  v.alpha / (v.alpha + v.beta)

/-- Exploration floor `1e-6` of `ab_logic.py:14`. -/
def epsWeight : ℚ := 1 / 1000000

/-- Weight `max(v.mean, 1e-6)` (`ab_logic.py:14`). -/
def weightOf (v : VariantPosterior) : ℚ := max v.mean epsWeight

/-- Pre-normalization total `total = sum(weights)` (`ab_logic.py:14`). -/
def preTotal (ps : List VariantPosterior) : ℚ := (ps.map weightOf).sum

/-- First normalization `alloc = [w/total for w in weights]`
(`ab_logic.py:15`). -/
def preAlloc (ps : List VariantPosterior) : List ℚ :=
  ps.map (fun v => weightOf v / preTotal ps)

/-- Floored allocations `[max(a, min_share) for a in alloc]`
(`ab_logic.py:15`). -/
def flooredAlloc (ps : List VariantPosterior) (minShare : ℚ) : List ℚ :=
  (preAlloc ps).map (fun a => max a minShare)

/-- Post-floor normalizer `norm = sum(alloc)` (`ab_logic.py:16`). -/
def floorNorm (ps : List VariantPosterior) (minShare : ℚ) : ℚ :=
  (flooredAlloc ps minShare).sum

/-- Traffic allocation `recommend_allocations` (`ab_logic.py:13-17`),
keyed by variant id (the Python dict is embedded as an association list in
input order). -/
def recommend_allocations (ps : List VariantPosterior)
    (minShare : ℚ := 1 / 10) : List (String × ℚ) :=
  List.zipWith (fun p a => (p.variant_id, a / floorNorm ps minShare))
    ps (flooredAlloc ps minShare)

/-- First maximal-mean element, as Python `max(posteriors, key=...)`
(`ab_logic.py:22`); `none` on the empty list, where Python raises. -/
def pickWinner : List VariantPosterior → Option VariantPosterior
  | [] => none
  | h :: t => some (t.foldl (fun best v => if best.mean < v.mean then v else best) h)

/-- Total impressions `sum(v.impressions for v in posteriors)`
(`ab_logic.py:20`). -/
def totalImpressions (ps : List VariantPosterior) : Int :=
  (ps.map (fun v => v.impressions)).sum

/-- Promotion decision `should_promote` (`ab_logic.py:19-23`). -/
def should_promote (ps : List VariantPosterior) (minImpressions : Int)
    (runtimeOk : Bool) : Bool × Option String × Option ℚ :=
  if totalImpressions ps < minImpressions ∨ runtimeOk = false then
    (false, none, none)
  else
    match pickWinner ps with
    | none => (false, none, none)
    | some w => (true, some w.variant_id, some w.mean)

/-- Hard-coded runtime gate of the decide endpoint (`ab.py:89`,
`runtime_ok = True`): the experiment's `min_runtime_seconds` and the
elapsed wall-clock time since creation are never consulted. -/
def decideRuntimeOk (_minRuntimeSeconds _elapsedSeconds : Int) : Bool := true

/-- Whether the decide endpoint promotes a winner (`ab.py:90-94`): the
first component of `should_promote` called with the hard-coded gate. -/
def decidePromotes (ps : List VariantPosterior) (minImpressions : Int)
    (minRuntimeSeconds elapsedSeconds : Int) : Bool :=
  (should_promote ps minImpressions
    (decideRuntimeOk minRuntimeSeconds elapsedSeconds)).1

/-- Row of the queue snapshot joined with its plan: the select of
`(id, created_at, lane, input_minutes, target_multiplier)` plus the state
used by the filter (`eta.py:11-15`). -/
structure QJob where
  lane : Int
  createdAt : Int
  inputMinutes : Int
  targetMultiplier : ℚ
  state : JobState
deriving DecidableEq, Repr

/-- States admitted by the snapshot filter of `queue_minutes_ahead`
(`eta.py:14`); the filter of `queue_status` (`jobs.py:78`) lists exactly
the same states.  UPLOADING is absent from both. -/
def isActiveState (s : JobState) : Bool :=
  match s with
  | .QUEUED | .INGESTING | .TRANSCRIBING | .ANALYZING | .EDITING
  | .RENDERING => true
  | _ => false

/-- Tie-break of `eta.py:19`:
`(lane < current.lane) or (lane == current.lane and created_at <
current.created_at)`. -/
def aheadOf (j cur : QJob) : Bool :=
  decide (j.lane < cur.lane) ||
    (j.lane == cur.lane && decide (j.createdAt < cur.createdAt))

/-- Queue minutes ahead of `cur` (`eta.py:9-22`): sum of
`input_minutes * target_multiplier` over the snapshot rows that are ahead
of `cur`. -/
def queue_minutes_ahead (jobs : List QJob) (cur : QJob) : ℚ :=
  (jobs.filter (fun j => isActiveState j.state)).foldl
    (fun total j =>
      if aheadOf j cur then total + (j.inputMinutes : ℚ) * j.targetMultiplier
      else total) 0

/-- Python `int(...)` applied to an exact rational value: truncation toward
zero. -/
def pyInt (q : ℚ) : ℤ := if 0 ≤ q then ⌊q⌋ else ⌈q⌉

/-- Per-lane throughput map `THROUGHPUT` with its `.get(lane, 1.0)` default
(`eta.py:7`, `eta.py:27`); `tp0 tp1 tp2` are the configured settings
`THROUGHPUT_P0/P1/P2` (`config.py`, defaults 1.6, 1.2, 1.0). -/
def throughputFor (tp0 tp1 tp2 : ℚ) (lane : Int) : ℚ :=
  if lane = 0 then tp0 else if lane = 1 then tp1 else if lane = 2 then tp2 else 1

/-- ETA in seconds, `compute_eta_seconds` (`eta.py:24-29`):
`int(((q_ahead / effective) + exp_min) * 60)`. -/
def compute_eta_seconds (tp0 tp1 tp2 : ℚ) (jobs : List QJob) (job : QJob) : ℤ :=
  let q_ahead := queue_minutes_ahead jobs job
  let exp_min := (job.inputMinutes : ℚ) * job.targetMultiplier
  let effective := throughputFor tp0 tp1 tp2 job.lane
  let eta_minutes := q_ahead / effective + exp_min
  pyInt (eta_minutes * 60)

/-- Python `LANE_MAP.get(lane, "P2")` (`eta.py:6`, `eta.py:31-32`). -/
def lane_str (lane : Int) : String :=
  if lane = 0 then "P0" else if lane = 1 then "P1" else "P2"

/-- Follows the spec's words: Job A is ahead of Job B iff
`A.lane < B.lane`, or `A.lane == B.lane and A.createdAt < B.createdAt`. -/
def SpecAheadOf (a b : QJob) : Prop :=
  a.lane < b.lane ∨ (a.lane = b.lane ∧ a.createdAt < b.createdAt)

/-- Python `round(...)` on an exact rational value: nearest integer with
ties to even. -/
def pyRound (q : ℚ) : ℤ :=
  let f := ⌊q⌋
  let r := q - (f : ℚ)
  if r < 1 / 2 then f
  else if 1 / 2 < r then f + 1
  else if f % 2 = 0 then f else f + 1

/-- Follows the spec's words: `etaSeconds = round((queueMinutesAhead /
effectiveThroughput) + expectedMinutes) × 60`. -/
def specEtaSeconds (tp0 tp1 tp2 : ℚ) (jobs : List QJob) (job : QJob) : ℤ :=
  pyRound (queue_minutes_ahead jobs job / throughputFor tp0 tp1 tp2 job.lane
    + (job.inputMinutes : ℚ) * job.targetMultiplier) * 60

/-- Follows the spec's words with the rounding replaced by the code's
truncation: `etaSeconds = int(((queueMinutesAhead / effectiveThroughput) +
expectedMinutes) × 60)`. -/
def specEtaSecondsTrunc (tp0 tp1 tp2 : ℚ) (jobs : List QJob) (job : QJob) : ℤ :=
  pyInt ((queue_minutes_ahead jobs job / throughputFor tp0 tp1 tp2 job.lane
    + (job.inputMinutes : ℚ) * job.targetMultiplier) * 60)

/-- Follows the spec's words: the snapshot states, "all Jobs currently in
non-terminal, non-CREATED states (QUEUED..UPLOADING)". -/
def specActiveState (s : JobState) : Bool :=
  match s with
  | .QUEUED | .INGESTING | .TRANSCRIBING | .ANALYZING | .EDITING
  | .RENDERING | .UPLOADING => true
  | _ => false

/-- Row of the `plans` table (`app/models.py`, `class Plan`); the billing
multiplier is outside the modelled scope. -/
structure PlanRec where
  id : String
  lane : Int
  maxInputMinutes : Int
  targetMultiplier : ℚ
deriving DecidableEq, Repr

/-- Row of the `jobs` table (`app/models.py`, `class Job`); ids are
embedded as naturals and timestamps as integers. -/
structure SJob where
  id : Nat
  orgId : Nat
  sourceUrl : String
  inputMinutes : Int
  planId : String
  lane : Int
  state : JobState
  createdAt : Int
  etaSeconds : Option ℤ
  idempotencyKey : Option String
deriving DecidableEq, Repr

/-- Append-only `job_events` row (`app/models.py`, `class JobEvent`). -/
structure SJobEvent where
  jobId : Nat
  state : JobState
deriving DecidableEq, Repr

/-- Database state visible to the jobs router: the single demo org kept by
`_ensure_demo_org` (`jobs.py:14-20`), the plans and jobs tables, the event
log, a counter standing in for `uuid4` id generation, and the clock feeding
`func.now()`. -/
structure Store where
  orgId : Nat
  plans : List PlanRec
  jobs : List SJob
  events : List SJobEvent
  nextId : Nat
  now : Int
deriving DecidableEq, Repr

/-- Request body `CreateJobIn` (`app/schemas.py`); the webhook field is
unused by `create_job`. -/
structure CreateJobIn where
  sourceUrl : String
  inputMinutes : Int
  plan : String
  idempotencyKey : Option String
deriving DecidableEq, Repr

/-- The fields of the response `JobOut` populated by `create_job`
(`app/schemas.py`, `jobs.py:39` and `jobs.py:48`). -/
structure JobOutR where
  jobId : Nat
  state : JobState
  etaSeconds : ℤ
  lane : String
deriving DecidableEq, Repr

/-- Error outcomes of `create_job`: the two HTTP 400 validations
(`jobs.py:31-34`), plus the uncaught exceptions raised by
`scalar_one_or_none` on several duplicates and by the plan dereference in
`compute_eta_seconds` when a duplicate's plan row is missing. -/
inductive JobErr where
  | UnknownPlan
  | InvalidInput
  | MultipleResults
  | PlanMissing
deriving DecidableEq, Repr

/-- Plan lookup by primary key (`jobs.py:30`, `eta.py:26`). -/
def findPlan (s : Store) (pid : String) : Option PlanRec :=
  s.plans.find? (fun p => p.id == pid)

/-- Join of a job row with its plan row, as selected by
`queue_minutes_ahead` (`eta.py:12-13`). -/
def toQJob (j : SJob) (p : PlanRec) : QJob :=
  { lane := j.lane, createdAt := j.createdAt, inputMinutes := j.inputMinutes
    targetMultiplier := p.targetMultiplier, state := j.state }

/-- Inner join `jobs JOIN plans ON plans.id == jobs.plan_id`
(`eta.py:12-13`): jobs without a matching plan row are dropped. -/
def snapshotOf (s : Store) : List QJob :=
  s.jobs.filterMap (fun j => (findPlan s j.planId).map (toQJob j))

/-- ETA of a stored job: `compute_eta_seconds(session, job)` reads the
snapshot and dereferences the job's plan (`eta.py:24-29`); `none` when the
plan row is missing (Python would raise). -/
def computeEtaFor (tp0 tp1 tp2 : ℚ) (s : Store) (j : SJob) : Option ℤ :=
  (findPlan s j.planId).map
    (fun p => compute_eta_seconds tp0 tp1 tp2 (snapshotOf s) (toQJob j p))

/-- Truthiness of `payload.idempotencyKey` in `jobs.py:35`: `None` and the
empty string are both falsy in Python. -/
def keyTruthy (k? : Option String) : Bool :=
  match k? with
  | none => false
  | some k => !(k == "")

/-- Duplicate lookup of `jobs.py:36`: jobs of the demo org whose stored
idempotency key equals the supplied one. -/
def dupCandidates (orgId : Nat) (jobs : List SJob) (key : Option String) :
    List SJob :=
  jobs.filter (fun j => j.orgId == orgId && j.idempotencyKey == key)

/-- The `update(Job).values(eta_seconds=eta)` of `jobs.py:46`, applied to
the row with the given id. -/
def setEta (newId : Nat) (eta : ℤ) (j : SJob) : SJob :=
  if j.id == newId then { j with etaSeconds := some eta } else j

/-- The duplicate-return branch of `create_job` (`jobs.py:37-39`): the
returned ETA is the stored one or, when NULL, a freshly computed one; the
store is not modified. -/
def dupReturn (tp0 tp1 tp2 : ℚ) (s : Store) (dup : SJob) :
    Except JobErr (JobOutR × Store) :=
  let eta? := match dup.etaSeconds with
    | some e => some e
    | none => computeEtaFor tp0 tp1 tp2 s dup
  match eta? with
  | none => .error .PlanMissing
  | some eta =>
    .ok ({ jobId := dup.id, state := dup.state, etaSeconds := eta
           lane := lane_str dup.lane }, s)

/-- The fresh job row inserted by `create_job` (`jobs.py:41`): state
QUEUED, lane copied from the plan, ETA not yet set. -/
def freshJob (s : Store) (p : CreateJobIn) (plan : PlanRec) : SJob :=
  { id := s.nextId, orgId := s.orgId, sourceUrl := p.sourceUrl
    inputMinutes := p.inputMinutes, planId := plan.id
    lane := plan.lane, state := .QUEUED, createdAt := s.now
    etaSeconds := none, idempotencyKey := p.idempotencyKey }

/-- The insert branch of `create_job` (`jobs.py:40-48`): insert the fresh
job and its QUEUED event, commit, recompute the ETA over the snapshot that
now contains the fresh job, store it, and return the response. -/
def createFresh (tp0 tp1 tp2 : ℚ) (s : Store) (p : CreateJobIn)
    (plan : PlanRec) : JobOutR × Store :=
  let newJob := freshJob s p plan
  let s1 : Store :=
    { s with jobs := s.jobs ++ [newJob]
             events := s.events ++ [⟨s.nextId, .QUEUED⟩]
             nextId := s.nextId + 1, now := s.now + 1 }
  let eta := compute_eta_seconds tp0 tp1 tp2 (snapshotOf s1)
    (toQJob newJob plan)
  let s2 : Store := { s1 with jobs := s1.jobs.map (setEta s.nextId eta) }
  ({ jobId := s.nextId, state := .QUEUED, etaSeconds := eta
     lane := lane_str plan.lane }, s2)

/-- The submit endpoint `create_job` (`jobs.py:26-48`).  The API-key check
and the demo-org bootstrap are transport concerns, embedded as the fixed
`orgId` of the store.  Returns the response body and the updated store. -/
def create_job (tp0 tp1 tp2 : ℚ) (s : Store) (p : CreateJobIn) :
    Except JobErr (JobOutR × Store) :=
  match findPlan s p.plan with
  | none => .error .UnknownPlan
  | some plan =>
    if p.inputMinutes ≤ 0 ∨ plan.maxInputMinutes < p.inputMinutes then
      .error .InvalidInput
    else
      match (if keyTruthy p.idempotencyKey then
          dupCandidates s.orgId s.jobs p.idempotencyKey
        else []) with
      | dup :: [] => dupReturn tp0 tp1 tp2 s dup
      | _ :: _ :: _ => .error .MultipleResults
      | [] => .ok (createFresh tp0 tp1 tp2 s p plan)

/-- Python dict lookup `{0:"P0",1:"P1",2:"P2"}.get(l, "P2")`
(`jobs.py:81`). -/
def lane_str2 (l : Int) : String :=
  if l = 0 then "P0" else if l = 1 then "P1" else "P2"

/-- Value of one entry of the `lanes` dict (`jobs.py:82-84`). -/
structure LaneEntry where
  count : Int
  avgEtaSeconds : Option ℤ
deriving DecidableEq, Repr

/-- The `lanes` dict with its three fixed keys P0, P1, P2 (`jobs.py:82`). -/
structure LanesOut where
  p0 : LaneEntry
  p1 : LaneEntry
  p2 : LaneEntry
deriving DecidableEq, Repr

/-- First-occurrence deduplication of the lane values, modelling the
one-row-per-lane grouping of the SQL `GROUP BY` (row order is unspecified
in SQL; the embedding fixes first-occurrence order). -/
def dedupAux (seen : List Int) : List Int → List Int
  | [] => []
  | l :: rest =>
    if l ∈ seen then dedupAux seen rest else l :: dedupAux (l :: seen) rest

/-- SQL aggregate rows `(lane, count(*), avg(eta_seconds))`, one per
distinct lane of the active jobs (`jobs.py:76-80`); `avg` ignores NULL
inputs and is NULL when every input is NULL. -/
def groupRows (jobs : List SJob) : List (Int × Int × Option ℚ) :=
  let active := jobs.filter (fun j => isActiveState j.state)
  (dedupAux [] (active.map (fun j => j.lane))).map (fun l =>
    let grp := active.filter (fun j => j.lane == l)
    let etas := grp.filterMap (fun j => j.etaSeconds)
    (l, (grp.length : Int),
      if etas.isEmpty then none
      else some ((etas.map (fun e => (e : ℚ))).sum / (etas.length : ℚ))))

/-- Lane entry written for one aggregate row: `{"count": int(cnt),
"avgEtaSeconds": int(avg_eta) if avg_eta else None}` (`jobs.py:84`) — an
average that is SQL NULL or equal to 0 is falsy and becomes `None`. -/
def mkLaneEntry (cnt : Int) (avg : Option ℚ) : LaneEntry :=
  { count := cnt
    avgEtaSeconds := match avg with
      | none => none
      | some q => if q = 0 then none else some (pyInt q) }

/-- The assignment `lanes[lane_str2(lane)] = {...}` for one aggregate row
(`jobs.py:83-84`). -/
def applyRow (acc : LanesOut) (row : Int × Int × Option ℚ) : LanesOut :=
  let entry := mkLaneEntry row.2.1 row.2.2
  if lane_str2 row.1 = "P0" then { acc with p0 := entry }
  else if lane_str2 row.1 = "P1" then { acc with p1 := entry }
  else { acc with p2 := entry }

/-- The aggregate queue-status view `queue_status` (`jobs.py:74-85`). -/
def queue_status (jobs : List SJob) : LanesOut :=
  (groupRows jobs).foldl applyRow
    { p0 := { count := 0, avgEtaSeconds := none }
      p1 := { count := 0, avgEtaSeconds := none }
      p2 := { count := 0, avgEtaSeconds := none } }

/-- Modelled from the spec: position in the linear chain
CREATED → QUEUED → INGESTING → TRANSCRIBING → ANALYZING → EDITING →
RENDERING → UPLOADING → COMPLETED of spec section 4.1; the failure
terminals are off-chain.  No `transition` operation exists under `src/`;
only the state enum itself (`app/models.py`) does. -/
def chainIndex : JobState → Option Nat
  | .CREATED => some 0
  | .QUEUED => some 1
  | .INGESTING => some 2
  | .TRANSCRIBING => some 3
  | .ANALYZING => some 4
  | .EDITING => some 5
  | .RENDERING => some 6
  | .UPLOADING => some 7
  | .COMPLETED => some 8
  | _ => none

/-- Modelled from the spec: terminal states — COMPLETED plus the failure
terminals FAILED, TIMED_OUT, CANCELED. -/
def isTerminal (s : JobState) : Bool :=
  match s with
  | .COMPLETED | .FAILED | .TIMED_OUT | .CANCELED => true
  | _ => false

/-- Modelled from the spec: the failure terminals, reachable from any
non-terminal state. -/
def isFailureTerminal (s : JobState) : Bool :=
  match s with
  | .FAILED | .TIMED_OUT | .CANCELED => true
  | _ => false

/-- Modelled from the spec: `cur` strictly precedes `nxt` on the linear
chain. -/
def chainBefore (cur nxt : JobState) : Bool :=
  match chainIndex cur, chainIndex nxt with
  | some i, some j => decide (i < j)
  | _, _ => false

/-- Modelled from the spec: `nxt` is reachable from `cur` — `cur` is
non-terminal and `nxt` is either strictly later on the chain or a failure
terminal. -/
def reachableState (cur nxt : JobState) : Bool :=
  !isTerminal cur && (chainBefore cur nxt || isFailureTerminal nxt)

/-- Errors of the spec's `transition` operation. -/
inductive TransErr where
  | JobNotFound
  | IllegalTransition
deriving DecidableEq, Repr

/-- Modelled from the spec: `transition(jobId, newState)` (spec section
4.1) — no implementation exists under `src/`.  Fails with `JobNotFound` on
an unknown id, with `IllegalTransition` when the new state is not
reachable, and otherwise updates the job's state and appends a JobEvent. -/
def transitionJob (s : Store) (jid : Nat) (nxt : JobState) :
    Except TransErr Store :=
  match s.jobs.find? (fun j => j.id == jid) with
  | none => .error .JobNotFound
  | some j =>
    if reachableState j.state nxt then
      .ok { s with
        jobs := s.jobs.map
          (fun j2 => if j2.id == jid then { j2 with state := nxt } else j2)
        events := s.events ++ [⟨jid, nxt⟩] }
    else .error .IllegalTransition

/-- Concrete job for the C3 counterexample: inputMinutes 1 on a lane-1
plan with target multiplier 1.2 (the seeded priority tier). -/
def c3Job : QJob :=
  { lane := 1, createdAt := 0, inputMinutes := 1, targetMultiplier := 6 / 5
    state := .QUEUED }

/-- Concrete UPLOADING lane-0 job for the C7 counterexample. -/
def c7Uploading : QJob :=
  { lane := 0, createdAt := 0, inputMinutes := 10, targetMultiplier := 4 / 5
    state := .UPLOADING }

/-- Concrete lane-1 target job for the C7 counterexample. -/
def c7Target : QJob :=
  { lane := 1, createdAt := 1, inputMinutes := 20, targetMultiplier := 6 / 5
    state := .QUEUED }

/-- Concrete posterior for the C5 failing input: one variant, one
impression, one click (priors (1,1), target metric CTR). -/
def c5Variant : VariantPosterior :=
  { variant_id := "a", impressions := 1, successes := 1, alpha := 2, beta := 1 }

/-- Concrete store for the C8 witness: a single COMPLETED job. -/
def c8Store : Store :=
  { orgId := 0
    plans := [{ id := "express", lane := 0, maxInputMinutes := 30
                targetMultiplier := 4 / 5 }]
    jobs := [{ id := 0, orgId := 0, sourceUrl := "u", inputMinutes := 10
               planId := "express", lane := 0, state := .COMPLETED
               createdAt := 0, etaSeconds := some 480
               idempotencyKey := none }]
    events := [], nextId := 1, now := 1 }

/-- Concrete strong variant for the C4 counterexample: posterior mean
9/10. -/
def c4A : VariantPosterior :=
  { variant_id := "A", impressions := 10, successes := 9, alpha := 9, beta := 1 }

/-- Concrete weak variant for the C4 counterexample: posterior mean
1/100. -/
def c4B : VariantPosterior :=
  { variant_id := "B", impressions := 100, successes := 1, alpha := 1, beta := 99 }

/-- Concrete posterior for the C9 witness. -/
def c9V : VariantPosterior :=
  { variant_id := "v", impressions := 0, successes := 0, alpha := 1, beta := 1 }

/-- The express plan row (lane 0, maxInputMinutes 30, multiplier 0.8). -/
def w6Plan : PlanRec :=
  { id := "express", lane := 0, maxInputMinutes := 30, targetMultiplier := 4 / 5 }

/-- Empty store used by the C6 witness. -/
def w6Store : Store :=
  { orgId := 0, plans := [w6Plan], jobs := [], events := [], nextId := 0
    now := 0 }

/-- Submission payload used by the C6 witness. -/
def w6In : CreateJobIn :=
  { sourceUrl := "u", inputMinutes := 10, plan := "express"
    idempotencyKey := some "k" }

/-- Stored job carrying the empty-string idempotency key. -/
def c6OldJob : SJob :=
  { id := 0, orgId := 0, sourceUrl := "u", inputMinutes := 10
    planId := "express", lane := 0, state := .COMPLETED, createdAt := 0
    etaSeconds := some 480, idempotencyKey := some "" }

/-- Store for the C6 counterexample: one job with key "" exists. -/
def c6Store : Store :=
  { orgId := 0, plans := [w6Plan], jobs := [c6OldJob], events := []
    nextId := 1, now := 1 }

/-- Resubmission payload with the same empty-string key. -/
def c6In : CreateJobIn :=
  { sourceUrl := "u", inputMinutes := 10, plan := "express"
    idempotencyKey := some "" }

/-- Active job on the out-of-range lane 7 for the C10 counterexample. -/
def c10J7 : SJob :=
  { id := 0, orgId := 0, sourceUrl := "u", inputMinutes := 1
    planId := "express", lane := 7, state := .QUEUED, createdAt := 0
    etaSeconds := some 100, idempotencyKey := none }

/-- Active job on lane 2 for the C10 counterexample. -/
def c10J2 : SJob :=
  { id := 1, orgId := 0, sourceUrl := "u", inputMinutes := 1
    planId := "express", lane := 2, state := .QUEUED, createdAt := 1
    etaSeconds := some 7, idempotencyKey := none }

/-- The selected counter after one ingest item is the old selected counter
plus the selected delta. -/
lemma successesOf_ingestStep (pa pb : Int) (m : TargetMetric)
    (st : VariantStat) (row : MetricsDelta) :
    successesOf m (ingestStep pa pb m st row) =
      successesOf m st + deltaSuccesses m row := by
  cases m <;> rfl

/-- One ingest item re-establishes the posterior invariant from any stats
row whatsoever. -/
lemma ingestStep_inv (pa pb : Int) (m : TargetMetric) (st : VariantStat)
    (row : MetricsDelta) :
    PosteriorInv pa pb m (ingestStep pa pb m st row) := by
  constructor
  · rw [successesOf_ingestStep]
    rfl
  · rw [successesOf_ingestStep]
    show pb + max ((st.impressions + row.impressionsDelta) -
      (successesOf m st + deltaSuccesses m row)) 0 = _
    rfl

/-- The invariant is preserved by any sequence of ingest items. -/
lemma foldl_ingestStep_inv (pa pb : Int) (m : TargetMetric)
    (rows : List MetricsDelta) (st : VariantStat)
    (h : PosteriorInv pa pb m st) :
    PosteriorInv pa pb m (rows.foldl (ingestStep pa pb m) st) := by
  induction rows generalizing st with
  | nil => exact h
  | cons r rest ih => exact ih _ (ingestStep_inv pa pb m st r)

lemma initStat_inv (m : TargetMetric) : PosteriorInv 1 1 m initStat := by
  cases m <;> exact ⟨rfl, rfl⟩

lemma decidePosterior_of_inv (pa pb : Int) (m : TargetMetric)
    (st : VariantStat) (h : PosteriorInv pa pb m st) :
    decidePosterior pa pb m st = (st.alpha, st.beta) := by
  obtain ⟨h1, h2⟩ := h
  simp [decidePosterior, h1, h2]

/-- C1: for every Variant, after any sequence of ingestMetrics items the
stored posterior parameters satisfy `alpha = priorAlpha + successes` and
`beta = priorBeta + max(impressions - successes, 0)`, where successes is
the counter selected by the experiment's target metric; and the decide
endpoint recomputes exactly the stored posterior from the stored counters.
The first conjunct shows a single ingest item re-establishes the invariant
from any row and any priors; the second covers the states reachable from
experiment creation (priors (1,1), zeroed counters, alpha = beta = 1). -/
theorem C1_posterior_invariant :
    (∀ (pa pb : Int) (m : TargetMetric) (st : VariantStat)
        (row : MetricsDelta),
      PosteriorInv pa pb m (ingestStep pa pb m st row)) ∧
    (∀ (m : TargetMetric) (rows : List MetricsDelta),
      PosteriorInv 1 1 m (rows.foldl (ingestStep 1 1 m) initStat) ∧
      decidePosterior 1 1 m (rows.foldl (ingestStep 1 1 m) initStat) =
        ((rows.foldl (ingestStep 1 1 m) initStat).alpha,
         (rows.foldl (ingestStep 1 1 m) initStat).beta)) := by
  refine ⟨ingestStep_inv, fun m rows => ?_⟩
  have h := foldl_ingestStep_inv 1 1 m rows initStat (initStat_inv m)
  exact ⟨h, decidePosterior_of_inv 1 1 m _ h⟩

/-- Summation form of the ahead-filter loop of `queue_minutes_ahead`. -/
lemma foldl_ahead_sum (cur : QJob) (l : List QJob) (acc : ℚ) :
    l.foldl
      (fun total j =>
        if aheadOf j cur then total + (j.inputMinutes : ℚ) * j.targetMultiplier
        else total) acc =
      acc + ((l.filter (fun j => aheadOf j cur)).map
        (fun j => (j.inputMinutes : ℚ) * j.targetMultiplier)).sum := by
  induction l generalizing acc with
  | nil => simp
  | cons j rest ih =>
    by_cases h : aheadOf j cur
    · simp only [List.foldl_cons, List.filter_cons, h, if_pos, List.map_cons,
        List.sum_cons, ih]
      ring
    · simp only [List.foldl_cons, List.filter_cons, h, if_neg,
        Bool.false_eq_true, ih]
      simp [h]

/-- C2: a Job A is counted into Job B's queueMinutesAhead exactly when
`A.lane < B.lane`, or `A.lane = B.lane` and `A.createdAt < B.createdAt`:
the code's tie-break `aheadOf` coincides with the spec's ordering rule, and
`queue_minutes_ahead` is precisely the sum of
`inputMinutes × targetMultiplier` over the active snapshot jobs that are
ahead under that rule. -/
theorem C2_ahead_ordering :
    (∀ a b : QJob, aheadOf a b = true ↔ SpecAheadOf a b) ∧
    (∀ (jobs : List QJob) (cur : QJob),
      queue_minutes_ahead jobs cur =
        (((jobs.filter (fun j => isActiveState j.state)).filter
            (fun j => aheadOf j cur)).map
          (fun j => (j.inputMinutes : ℚ) * j.targetMultiplier)).sum) := by
  constructor
  · intro a b
    simp [aheadOf, SpecAheadOf]
  · intro jobs cur
    unfold queue_minutes_ahead
    rw [foldl_ahead_sum]
    ring

/-- C3 counterexample: with the default throughput settings (1.6, 1.2,
1.0) and an empty queue, a job with inputMinutes 1 and target multiplier
1.2 gets `int(1.2 × 60) = 72` seconds from the code, while the claimed
formula `round((queueMinutesAhead / effectiveThroughput) +
expectedMinutes) × 60 = round(1.2) × 60` gives 60. -/
theorem C3_eta_formula_counterexample :
    compute_eta_seconds (8 / 5) (6 / 5) 1 [] c3Job = 72 ∧
    specEtaSeconds (8 / 5) (6 / 5) 1 [] c3Job = 60 ∧
    compute_eta_seconds (8 / 5) (6 / 5) 1 [] c3Job ≠
      specEtaSeconds (8 / 5) (6 / 5) 1 [] c3Job := by
  have harg : queue_minutes_ahead [] c3Job /
      throughputFor (8 / 5) (6 / 5) 1 c3Job.lane +
      (c3Job.inputMinutes : ℚ) * c3Job.targetMultiplier = 6 / 5 := by
    norm_num [queue_minutes_ahead, throughputFor, c3Job]
  have hfloor : ⌊(6 / 5 : ℚ)⌋ = 1 := by
    rw [Int.floor_eq_iff]
    norm_num
  have h1 : compute_eta_seconds (8 / 5) (6 / 5) 1 [] c3Job = 72 := by
    show pyInt ((queue_minutes_ahead [] c3Job /
      throughputFor (8 / 5) (6 / 5) 1 c3Job.lane +
      (c3Job.inputMinutes : ℚ) * c3Job.targetMultiplier) * 60) = 72
    rw [harg]
    have h72 : ((6 / 5 : ℚ) * 60) = ((72 : ℤ) : ℚ) := by norm_num
    rw [h72]
    simp [pyInt]
  have h2 : specEtaSeconds (8 / 5) (6 / 5) 1 [] c3Job = 60 := by
    show pyRound (queue_minutes_ahead [] c3Job /
      throughputFor (8 / 5) (6 / 5) 1 c3Job.lane +
      (c3Job.inputMinutes : ℚ) * c3Job.targetMultiplier) * 60 = 60
    rw [harg]
    show (if (6 / 5 : ℚ) - ((⌊(6 / 5 : ℚ)⌋ : ℤ) : ℚ) < 1 / 2 then ⌊(6 / 5 : ℚ)⌋
      else if 1 / 2 < (6 / 5 : ℚ) - ((⌊(6 / 5 : ℚ)⌋ : ℤ) : ℚ) then ⌊(6 / 5 : ℚ)⌋ + 1
      else if ⌊(6 / 5 : ℚ)⌋ % 2 = 0 then ⌊(6 / 5 : ℚ)⌋ else ⌊(6 / 5 : ℚ)⌋ + 1) * 60 = 60
    rw [hfloor]
    norm_num
  exact ⟨h1, h2, by rw [h1, h2]; norm_num⟩

/-- C3 amended: the ETA estimator returns
`etaSeconds = int(((queueMinutesAhead / effectiveThroughput) +
expectedMinutes) × 60)` — truncation of the total seconds toward zero, not
`round(minutes) × 60`; in particular a job in an empty queue gets
`etaSeconds = int(inputMinutes × targetMultiplier × 60)`. -/
theorem C3_eta_formula_amended :
    (∀ (tp0 tp1 tp2 : ℚ) (jobs : List QJob) (job : QJob),
      compute_eta_seconds tp0 tp1 tp2 jobs job =
        specEtaSecondsTrunc tp0 tp1 tp2 jobs job) ∧
    (∀ (tp0 tp1 tp2 : ℚ) (job : QJob),
      compute_eta_seconds tp0 tp1 tp2 [] job =
        pyInt ((job.inputMinutes : ℚ) * job.targetMultiplier * 60)) := by
  constructor
  · intro tp0 tp1 tp2 jobs job
    rfl
  · intro tp0 tp1 tp2 job
    show pyInt ((queue_minutes_ahead [] job / _ + _) * 60) = _
    have h0 : queue_minutes_ahead [] job = 0 := rfl
    rw [h0, zero_div, zero_add]

/-- C7 counterexample: UPLOADING lies inside the spec's snapshot
(QUEUED..UPLOADING) but outside the filter the code uses in both
`queue_minutes_ahead` and `queue_status`: an UPLOADING lane-0 job, ahead of
a lane-1 job under the ordering rule, contributes nothing to the latter's
queueMinutesAhead (its contribution would have been 10 × 0.8 = 8). -/
theorem C7_snapshot_states_counterexample :
    specActiveState .UPLOADING = true ∧
    isActiveState .UPLOADING = false ∧
    SpecAheadOf c7Uploading c7Target ∧
    queue_minutes_ahead [c7Uploading] c7Target = 0 ∧
    (c7Uploading.inputMinutes : ℚ) * c7Uploading.targetMultiplier = 8 := by
  refine ⟨rfl, rfl, Or.inl (by norm_num [c7Uploading, c7Target]), ?_, ?_⟩
  · simp [queue_minutes_ahead, c7Uploading, isActiveState]
  · norm_num [c7Uploading]

/-- C7 amended: the snapshot read by the ETA estimator and by the
aggregate queue-status view (both use the same state list) consists of
exactly the Jobs in QUEUED, INGESTING, TRANSCRIBING, ANALYZING, EDITING or
RENDERING; Jobs in CREATED, UPLOADING, or any terminal state are
excluded. -/
theorem C7_snapshot_states_amended :
    ∀ s : JobState, isActiveState s = true ↔
      (s = .QUEUED ∨ s = .INGESTING ∨ s = .TRANSCRIBING ∨ s = .ANALYZING ∨
       s = .EDITING ∨ s = .RENDERING) := by
  intro s
  cases s <;> simp [isActiveState]

/-- C5: the impressions gate holds — `should_promote` (and hence the decide
endpoint) never promotes while total impressions are below minImpressions —
but the runtime gate does not exist in the code: `decide` hard-codes
`runtime_ok = True` (`ab.py:89`), so with `minImpressions = 1` and
`minRuntimeSeconds = 3600` a decide call issued 0 seconds after creation
(0 < 3600) already promotes, contradicting the claim's second conjunct. -/
theorem C5_promotion_gates :
    (∀ (ps : List VariantPosterior) (minImpressions : Int) (rok : Bool),
      totalImpressions ps < minImpressions →
        (should_promote ps minImpressions rok).1 = false) ∧
    decidePromotes [c5Variant] 1 3600 0 = true ∧ (0 : Int) < 3600 := by
  refine ⟨?_, ?_, by norm_num⟩
  · intro ps minImpressions rok h
    simp [should_promote, h]
  · show (should_promote [c5Variant] 1 (decideRuntimeOk 3600 0)).1 = true
    have h : ¬(totalImpressions [c5Variant] < 1 ∨ decideRuntimeOk 3600 0 = false) := by
      simp [totalImpressions, c5Variant, decideRuntimeOk]
    simp [should_promote, h, pickWinner]

/-- Witness for the hypothesis of `C5_promotion_gates`: no posteriors at
all means 0 total impressions, below a minimum of 1, and no promotion. -/
theorem C5_promotion_gates_witness :
    totalImpressions [] < 1 ∧ (should_promote [] 1 true).1 = false :=
  ⟨by simp [totalImpressions], C5_promotion_gates.1 [] 1 true (by simp [totalImpressions])⟩

/-- C8 (the spec's transition operation; nothing under `src/` implements
it): `transition` fails with `IllegalTransition` and changes nothing
whenever the requested state is not reachable from the job's current state
under the linear order with failure terminals reachable only from
non-terminal states; failure terminals are reachable exactly from the
non-terminal states; and in particular a COMPLETED job cannot be moved to
RENDERING. -/
theorem C8_illegal_transition :
    (∀ (s : Store) (jid : Nat) (nxt : JobState) (j : SJob),
      s.jobs.find? (fun j2 => j2.id == jid) = some j →
      reachableState j.state nxt = false →
      transitionJob s jid nxt = .error .IllegalTransition) ∧
    (∀ cur t : JobState, isFailureTerminal t = true →
      (reachableState cur t = true ↔ isTerminal cur = false)) ∧
    reachableState .COMPLETED .RENDERING = false ∧
    (∀ (cur nxt : JobState), reachableState cur nxt = true ↔
      (isTerminal cur = false ∧
        (chainBefore cur nxt = true ∨ isFailureTerminal nxt = true))) := by
  refine ⟨?_, ?_, rfl, ?_⟩
  · intro s jid nxt j hfind hreach
    unfold transitionJob
    rw [hfind]
    simp [hreach]
  · intro cur t ht
    cases cur <;> cases t <;> simp_all [reachableState, isFailureTerminal,
      isTerminal, chainBefore, chainIndex]
  · intro cur nxt
    simp [reachableState]

/-- Witness for `C8_illegal_transition`: moving the COMPLETED job of
`c8Store` to RENDERING fails with IllegalTransition. -/
theorem C8_illegal_transition_witness :
    (c8Store.jobs.find? (fun j2 => j2.id == 0) =
      some { id := 0, orgId := 0, sourceUrl := "u", inputMinutes := 10
             planId := "express", lane := 0, state := .COMPLETED
             createdAt := 0, etaSeconds := some 480
             idempotencyKey := none }) ∧
    reachableState JobState.COMPLETED .RENDERING = false ∧
    transitionJob c8Store 0 .RENDERING = .error .IllegalTransition :=
  ⟨rfl, rfl, C8_illegal_transition.1 c8Store 0 .RENDERING _ rfl rfl⟩

lemma epsWeight_pos : 0 < epsWeight := by norm_num [epsWeight]

lemma weightOf_pos (v : VariantPosterior) : 0 < weightOf v :=
  lt_of_lt_of_le epsWeight_pos (le_max_right _ _)

lemma preTotal_pos (ps : List VariantPosterior) (h : ps ≠ []) :
    0 < preTotal ps := by
  apply List.sum_pos
  · intro x hx
    obtain ⟨v, _, rfl⟩ := List.mem_map.mp hx
    exact weightOf_pos v
  · simpa using h

lemma mem_preAlloc_pos (ps : List VariantPosterior) (h : ps ≠ []) :
    ∀ a ∈ preAlloc ps, 0 < a := by
  intro a ha
  obtain ⟨v, _, rfl⟩ := List.mem_map.mp ha
  exact div_pos (weightOf_pos v) (preTotal_pos ps h)

lemma mem_flooredAlloc_pos (ps : List VariantPosterior) (minShare : ℚ)
    (h : ps ≠ []) : ∀ x ∈ flooredAlloc ps minShare, 0 < x := by
  intro x hx
  obtain ⟨a, ha, rfl⟩ := List.mem_map.mp hx
  exact lt_of_lt_of_le (mem_preAlloc_pos ps h a ha) (le_max_left _ _)

lemma flooredAlloc_ne_nil (ps : List VariantPosterior) (minShare : ℚ)
    (h : ps ≠ []) : flooredAlloc ps minShare ≠ [] := by
  simpa [flooredAlloc, preAlloc] using h

lemma floorNorm_pos (ps : List VariantPosterior) (minShare : ℚ)
    (h : ps ≠ []) : 0 < floorNorm ps minShare :=
  List.sum_pos _ (mem_flooredAlloc_pos ps minShare h)
    (flooredAlloc_ne_nil ps minShare h)

/-- Summing the second components of the allocation pairs divides the
share list's sum by the normalizer. -/
lemma sum_zipWith_snd_div (c : ℚ) :
    ∀ (ps : List VariantPosterior) (l : List ℚ), ps.length = l.length →
      ((List.zipWith (fun p a => (p.variant_id, a / c)) ps l).map
        Prod.snd).sum = l.sum / c := by
  intro ps
  induction ps with
  | nil =>
    intro l h
    cases l with
    | nil => simp
    | cons a t => simp at h
  | cons p pt ih =>
    intro l h
    cases l with
    | nil => simp at h
    | cons a t =>
      have ht : pt.length = t.length := by simpa using h
      simp [ih t ht, add_div]

/-- C4 counterexample: two variants (numVariants × minShare = 0.2 ≤ 1)
with means 9/10 and 1/100.  The weak variant's share is floored to 1/10,
but the final renormalization divides by 991/910 > 1, leaving it at
91/991 < 1/10 — the claimed minShare guarantee fails. -/
theorem C4_minshare_counterexample :
    (2 : ℚ) * (1 / 10) ≤ 1 ∧
    recommend_allocations [c4A, c4B] (1 / 10) =
      [("A", 900 / 991), ("B", 91 / 991)] ∧
    (91 / 991 : ℚ) < 1 / 10 := by
  refine ⟨by norm_num, ?_, by norm_num⟩
  norm_num [recommend_allocations, flooredAlloc, preAlloc, preTotal,
    weightOf, VariantPosterior.mean, epsWeight, floorNorm, c4A, c4B, max_def]

/-- C4 amended: for every non-empty list of posteriors with well-defined
means, the returned shares sum to exactly 1; the minShare floor, however,
is applied before the final renormalization and is not preserved by it
(see the counterexample), so no lower bound of minShare on the returned
shares holds, even when numVariants × minShare ≤ 1. -/
theorem C4_allocations_sum_amended :
    ∀ (ps : List VariantPosterior) (minShare : ℚ),
      ps ≠ [] → (∀ v ∈ ps, v.alpha + v.beta ≠ 0) →
      ((recommend_allocations ps minShare).map Prod.snd).sum = 1 := by
  intro ps minShare hne _hdef
  have hlen : ps.length = (flooredAlloc ps minShare).length := by
    simp [flooredAlloc, preAlloc]
  rw [recommend_allocations, sum_zipWith_snd_div _ ps _ hlen]
  exact div_self (ne_of_gt (floorNorm_pos ps minShare hne))

/-- Witness for `C4_allocations_sum_amended` at the singleton list. -/
theorem C4_allocations_sum_amended_witness :
    ([c4A] ≠ []) ∧ (∀ v ∈ [c4A], v.alpha + v.beta ≠ 0) ∧
    ((recommend_allocations [c4A] (1 / 10)).map Prod.snd).sum = 1 := by
  have h1 : ([c4A] : List VariantPosterior) ≠ [] := by simp
  have h2 : ∀ v ∈ [c4A], v.alpha + v.beta ≠ 0 := by
    intro v hv
    simp only [List.mem_singleton] at hv
    subst hv
    norm_num [c4A]
  exact ⟨h1, h2, C4_allocations_sum_amended [c4A] (1 / 10) h1 h2⟩

/-- C9: on a non-empty list of posteriors whose parameters satisfy
alpha + beta > 0, recommend_allocations is total and divides by nothing
that can be zero — every mean's denominator is non-zero, every weight is
at least the 1e-6 floor so the pre-normalization total is strictly
positive, the post-floor normalizer is strictly positive, and one share is
produced per input variant. -/
theorem C9_allocations_total :
    ∀ (ps : List VariantPosterior) (minShare : ℚ),
      ps ≠ [] → (∀ v ∈ ps, 0 < v.alpha + v.beta) →
      (∀ v ∈ ps, v.alpha + v.beta ≠ 0) ∧
      (∀ v ∈ ps, epsWeight ≤ weightOf v) ∧
      0 < preTotal ps ∧
      0 < floorNorm ps minShare ∧
      (recommend_allocations ps minShare).length = ps.length := by
  intro ps minShare hne hpos
  refine ⟨fun v hv => ne_of_gt (hpos v hv), fun v _ => le_max_right _ _,
    preTotal_pos ps hne, floorNorm_pos ps minShare hne, ?_⟩
  simp [recommend_allocations, flooredAlloc, preAlloc]

/-- Witness for `C9_allocations_total` at a uniform-prior singleton. -/
theorem C9_allocations_total_witness :
    ([c9V] ≠ []) ∧ (∀ v ∈ [c9V], 0 < v.alpha + v.beta) ∧
    0 < floorNorm [c9V] (1 / 10) := by
  have h1 : ([c9V] : List VariantPosterior) ≠ [] := by simp
  have h2 : ∀ v ∈ [c9V], 0 < v.alpha + v.beta := by
    intro v hv
    simp only [List.mem_singleton] at hv
    subst hv
    norm_num [c9V]
  exact ⟨h1, h2, (C9_allocations_total [c9V] (1 / 10) h1 h2).2.2.2.1⟩

/-- Setting a row's ETA changes neither its org nor its idempotency key,
so the duplicate lookup commutes with the ETA update. -/
lemma dupCandidates_map_setEta (og : Nat) (l : List SJob)
    (key : Option String) (i : Nat) (e : ℤ) :
    dupCandidates og (l.map (setEta i e)) key =
      (dupCandidates og l key).map (setEta i e) := by
  unfold dupCandidates
  rw [List.filter_map]
  congr 1
  apply List.filter_congr
  intro j _
  simp only [Function.comp_apply, setEta]
  split <;> rfl

lemma dupCandidates_append (og : Nat) (l1 l2 : List SJob)
    (key : Option String) :
    dupCandidates og (l1 ++ l2) key =
      dupCandidates og l1 key ++ dupCandidates og l2 key := by
  simp [dupCandidates]

lemma dupCandidates_eq_nil (og : Nat) (l : List SJob) (key : Option String)
    (h : ∀ j ∈ l, ¬(j.orgId = og ∧ j.idempotencyKey = key)) :
    dupCandidates og l key = [] := by
  unfold dupCandidates
  rw [List.filter_eq_nil_iff]
  intro j hj
  simp only [Bool.and_eq_true, beq_iff_eq]
  exact h j hj

/-- With a known plan, valid input and no duplicate, `create_job` takes
the insert branch. -/
lemma create_job_eq_fresh (tp0 tp1 tp2 : ℚ) (s : Store) (p : CreateJobIn)
    (plan : PlanRec) (hplan : findPlan s p.plan = some plan)
    (hval : ¬(p.inputMinutes ≤ 0 ∨ plan.maxInputMinutes < p.inputMinutes))
    (hdup : (if keyTruthy p.idempotencyKey then
        dupCandidates s.orgId s.jobs p.idempotencyKey else []) = []) :
    create_job tp0 tp1 tp2 s p = .ok (createFresh tp0 tp1 tp2 s p plan) := by
  unfold create_job
  rw [hplan]
  simp only [if_neg hval, hdup]

/-- With a known plan, valid input and exactly one duplicate whose stored
ETA is set, `create_job` returns the duplicate unchanged. -/
lemma create_job_eq_dup (tp0 tp1 tp2 : ℚ) (s : Store) (p : CreateJobIn)
    (plan : PlanRec) (dup : SJob) (e : ℤ)
    (hplan : findPlan s p.plan = some plan)
    (hval : ¬(p.inputMinutes ≤ 0 ∨ plan.maxInputMinutes < p.inputMinutes))
    (hdup : (if keyTruthy p.idempotencyKey then
        dupCandidates s.orgId s.jobs p.idempotencyKey else []) = [dup])
    (he : dup.etaSeconds = some e) :
    create_job tp0 tp1 tp2 s p =
      .ok ({ jobId := dup.id, state := dup.state, etaSeconds := e
             lane := lane_str dup.lane }, s) := by
  unfold create_job
  rw [hplan]
  simp only [if_neg hval, hdup]
  unfold dupReturn
  rw [he]

/-- C6 (restricted to non-empty keys, see the counterexample): when a
non-empty idempotencyKey is supplied and no Job of the org already carries
it, submitting creates exactly one Job, and submitting again with the same
key returns that same jobId without touching the store — the duplicate
path returns the stored Job unchanged, creates no Job and assigns no
lane. -/
theorem C6_idempotent_submit :
    ∀ (tp0 tp1 tp2 : ℚ) (s : Store) (p : CreateJobIn) (plan : PlanRec)
      (k : String),
      p.idempotencyKey = some k → k ≠ "" →
      findPlan s p.plan = some plan →
      ¬(p.inputMinutes ≤ 0 ∨ plan.maxInputMinutes < p.inputMinutes) →
      (∀ j ∈ s.jobs, ¬(j.orgId = s.orgId ∧ j.idempotencyKey = some k)) →
      ∃ (out1 : JobOutR) (s1 : Store) (out2 : JobOutR),
        create_job tp0 tp1 tp2 s p = .ok (out1, s1) ∧
        create_job tp0 tp1 tp2 s1 p = .ok (out2, s1) ∧
        out2.jobId = out1.jobId ∧ out1.jobId = s.nextId ∧
        s1.jobs.length = s.jobs.length + 1 ∧
        (dupCandidates s.orgId s1.jobs (some k)).length = 1 := by
  intro tp0 tp1 tp2 s p plan k hk hk0 hplan hval hnone
  have hkt : keyTruthy p.idempotencyKey = true := by
    rw [hk]
    simp [keyTruthy, hk0]
  have hsel : (if keyTruthy p.idempotencyKey then
      dupCandidates s.orgId s.jobs p.idempotencyKey else []) = [] := by
    rw [if_pos hkt, hk]
    exact dupCandidates_eq_nil _ _ _ hnone
  have h1 : create_job tp0 tp1 tp2 s p =
      .ok (createFresh tp0 tp1 tp2 s p plan) :=
    create_job_eq_fresh tp0 tp1 tp2 s p plan hplan hval hsel
  set nj : SJob := freshJob s p plan with hnj
  set si : Store :=
    { s with jobs := s.jobs ++ [nj]
             events := s.events ++ [⟨s.nextId, .QUEUED⟩]
             nextId := s.nextId + 1, now := s.now + 1 } with hsi
  set E : ℤ := compute_eta_seconds tp0 tp1 tp2 (snapshotOf si)
    (toQJob nj plan) with hE
  set sf : Store := { si with jobs := si.jobs.map (setEta s.nextId E) }
    with hsf
  have hcf : createFresh tp0 tp1 tp2 s p plan =
      ({ jobId := s.nextId, state := .QUEUED, etaSeconds := E
         lane := lane_str plan.lane }, sf) := rfl
  have hjobs : sf.jobs = (s.jobs ++ [nj]).map (setEta s.nextId E) := rfl
  have hsete : setEta s.nextId E nj = { nj with etaSeconds := some E } := by
    simp [setEta, hnj, freshJob]
  have hdupf : dupCandidates s.orgId sf.jobs (some k) =
      [{ nj with etaSeconds := some E }] := by
    rw [hjobs, dupCandidates_map_setEta, dupCandidates_append,
      dupCandidates_eq_nil s.orgId s.jobs (some k) hnone]
    have hone : dupCandidates s.orgId [nj] (some k) = [nj] := by
      simp [dupCandidates, hnj, freshJob, hk]
    rw [hone]
    simp [hsete]
  have hsel2 : (if keyTruthy p.idempotencyKey then
      dupCandidates sf.orgId sf.jobs p.idempotencyKey else []) =
      [{ nj with etaSeconds := some E }] := by
    rw [if_pos hkt, hk]
    exact hdupf
  have h2 : create_job tp0 tp1 tp2 sf p =
      .ok ({ jobId := ({ nj with etaSeconds := some E } : SJob).id
             state := ({ nj with etaSeconds := some E } : SJob).state
             etaSeconds := E
             lane := lane_str ({ nj with etaSeconds := some E } : SJob).lane },
           sf) :=
    create_job_eq_dup tp0 tp1 tp2 sf p plan _ E hplan hval hsel2 rfl
  refine ⟨{ jobId := s.nextId, state := .QUEUED, etaSeconds := E
            lane := lane_str plan.lane }, sf, _,
    by rw [h1, hcf], h2, rfl, rfl, ?_, ?_⟩
  · rw [hjobs]
    simp
  · rw [hdupf]
    rfl

/-- Witness for `C6_idempotent_submit` at a concrete empty store. -/
theorem C6_idempotent_submit_witness :
    w6In.idempotencyKey = some "k" ∧ ("k" : String) ≠ "" ∧
    findPlan w6Store w6In.plan = some w6Plan ∧
    ¬(w6In.inputMinutes ≤ 0 ∨ w6Plan.maxInputMinutes < w6In.inputMinutes) ∧
    (∀ j ∈ w6Store.jobs,
      ¬(j.orgId = w6Store.orgId ∧ j.idempotencyKey = some "k")) ∧
    (∃ (out1 : JobOutR) (s1 : Store) (out2 : JobOutR),
      create_job (8 / 5) (6 / 5) 1 w6Store w6In = .ok (out1, s1) ∧
      create_job (8 / 5) (6 / 5) 1 s1 w6In = .ok (out2, s1) ∧
      out2.jobId = out1.jobId ∧ out1.jobId = w6Store.nextId ∧
      s1.jobs.length = w6Store.jobs.length + 1 ∧
      (dupCandidates w6Store.orgId s1.jobs (some "k")).length = 1) := by
  have hk : w6In.idempotencyKey = some "k" := rfl
  have hk0 : ("k" : String) ≠ "" := by decide
  have hplan : findPlan w6Store w6In.plan = some w6Plan := rfl
  have hval : ¬(w6In.inputMinutes ≤ 0 ∨
      w6Plan.maxInputMinutes < w6In.inputMinutes) := by
    decide
  have hnone : ∀ j ∈ w6Store.jobs,
      ¬(j.orgId = w6Store.orgId ∧ j.idempotencyKey = some "k") := by
    intro j hj
    simp [w6Store] at hj
  exact ⟨hk, hk0, hplan, hval, hnone,
    C6_idempotent_submit (8 / 5) (6 / 5) 1 w6Store w6In w6Plan "k"
      hk hk0 hplan hval hnone⟩

/-- C6 counterexample: the empty string is a supplied idempotencyKey, and
a prior Job with the same (orgId, "") exists, yet `create_job` does not
return it — Python's `if payload.idempotencyKey:` treats "" as absent, so
a second Job (fresh id 1 ≠ 0) is created and two Jobs end up stored. -/
theorem C6_empty_key_counterexample :
    c6In.idempotencyKey = some "" ∧
    c6OldJob.orgId = c6Store.orgId ∧
    c6OldJob.idempotencyKey = some "" ∧
    c6Store.jobs = [c6OldJob] ∧ c6OldJob.id = 0 ∧
    (create_job (8 / 5) (6 / 5) 1 c6Store c6In).map
      (fun r => (r.1.jobId, r.2.jobs.length)) = .ok (1, 2) ∧
    (1 : Nat) ≠ 0 := by
  have hplan : findPlan c6Store c6In.plan = some w6Plan := rfl
  have hval : ¬(c6In.inputMinutes ≤ 0 ∨
      w6Plan.maxInputMinutes < c6In.inputMinutes) := by decide
  have hsel : (if keyTruthy c6In.idempotencyKey then
      dupCandidates c6Store.orgId c6Store.jobs c6In.idempotencyKey
    else []) = [] := by
    simp [keyTruthy, c6In]
  have h := create_job_eq_fresh (8 / 5) (6 / 5) 1 c6Store c6In w6Plan
    hplan hval hsel
  refine ⟨rfl, rfl, rfl, rfl, rfl, ?_, by decide⟩
  rw [h]
  simp [createFresh, freshJob, Except.map, c6Store]

/-- Every lane surviving deduplication came from the input list. -/
lemma mem_dedupAux : ∀ (L seen : List Int) (x : Int),
    x ∈ dedupAux seen L → x ∈ L := by
  intro L
  induction L with
  | nil =>
    intro seen x h
    simp [dedupAux] at h
  | cons l rest ih =>
    intro seen x h
    simp only [dedupAux] at h
    by_cases hm : l ∈ seen
    · rw [if_pos hm] at h
      exact List.mem_cons_of_mem _ (ih seen x h)
    · rw [if_neg hm] at h
      rcases List.mem_cons.mp h with h1 | h2
      · rw [h1]
        exact List.mem_cons_self _ _
      · exact List.mem_cons_of_mem _ (ih _ x h2)

/-- Every aggregate row's lane is the lane of some active job. -/
lemma groupRows_lane (jobs : List SJob) :
    ∀ r ∈ groupRows jobs,
      ∃ j ∈ jobs, isActiveState j.state = true ∧ j.lane = r.1 := by
  intro r hr
  simp only [groupRows] at hr
  obtain ⟨l, hl, hrl⟩ := List.mem_map.mp hr
  have hx : l ∈ (jobs.filter fun j => isActiveState j.state).map
      (fun j => j.lane) := mem_dedupAux _ _ _ hl
  obtain ⟨j, hj, hjl⟩ := List.mem_map.mp hx
  have hjf := List.mem_filter.mp hj
  refine ⟨j, hjf.1, hjf.2, ?_⟩
  rw [← hrl]
  exact hjl

lemma lane_str2_ne_p0 (l : Int) (h : l ≠ 0) : lane_str2 l ≠ "P0" := by
  unfold lane_str2
  rw [if_neg h]
  split <;> decide

lemma lane_str2_ne_p1 (l : Int) (h : l ≠ 1) : lane_str2 l ≠ "P1" := by
  unfold lane_str2
  by_cases h0 : l = 0
  · rw [if_pos h0]
    decide
  · rw [if_neg h0, if_neg h]
    decide

lemma applyRow_p0_of_ne (acc : LanesOut) (row : Int × Int × Option ℚ)
    (h : row.1 ≠ 0) : (applyRow acc row).p0 = acc.p0 := by
  simp only [applyRow]
  rw [if_neg (lane_str2_ne_p0 row.1 h)]
  split <;> rfl

lemma applyRow_p1_of_ne (acc : LanesOut) (row : Int × Int × Option ℚ)
    (h : row.1 ≠ 1) : (applyRow acc row).p1 = acc.p1 := by
  simp only [applyRow]
  by_cases h0 : lane_str2 row.1 = "P0"
  · rw [if_pos h0]
  · rw [if_neg h0, if_neg (lane_str2_ne_p1 row.1 h)]

lemma foldl_applyRow_p0 :
    ∀ (rows : List (Int × Int × Option ℚ)) (acc : LanesOut),
      (∀ r ∈ rows, r.1 ≠ 0) → (rows.foldl applyRow acc).p0 = acc.p0 := by
  intro rows
  induction rows with
  | nil =>
    intro acc _
    rfl
  | cons r rest ih =>
    intro acc h
    rw [List.foldl_cons,
      ih (applyRow acc r) (fun r2 hr2 => h r2 (List.mem_cons_of_mem _ hr2))]
    exact applyRow_p0_of_ne acc r (h r (List.mem_cons_self _ _))

lemma foldl_applyRow_p1 :
    ∀ (rows : List (Int × Int × Option ℚ)) (acc : LanesOut),
      (∀ r ∈ rows, r.1 ≠ 1) → (rows.foldl applyRow acc).p1 = acc.p1 := by
  intro rows
  induction rows with
  | nil =>
    intro acc _
    rfl
  | cons r rest ih =>
    intro acc h
    rw [List.foldl_cons,
      ih (applyRow acc r) (fun r2 hr2 => h r2 (List.mem_cons_of_mem _ hr2))]
    exact applyRow_p1_of_ne acc r (h r (List.mem_cons_self _ _))

/-- C10 amended: queueStatus always reports exactly the three fixed lanes
P0, P1, P2 (the output structure); a lane with no active Jobs keeps count
0 and avgEtaSeconds null; a lane group whose average stored ETA is 0 also
reports null rather than 0; and a lane-group row whose lane lies outside
{0,1,2} is written to the P2 entry, overwriting it — so when several
distinct lanes map to P2 only the last-processed group is reported (see
the counterexample). -/
theorem C10_queue_status_amended :
    (∀ jobs : List SJob,
      (∀ j ∈ jobs, isActiveState j.state = true → j.lane ≠ 0) →
      (queue_status jobs).p0 = { count := 0, avgEtaSeconds := none }) ∧
    (∀ jobs : List SJob,
      (∀ j ∈ jobs, isActiveState j.state = true → j.lane ≠ 1) →
      (queue_status jobs).p1 = { count := 0, avgEtaSeconds := none }) ∧
    (∀ cnt : Int, mkLaneEntry cnt (some 0) =
      { count := cnt, avgEtaSeconds := none }) ∧
    (∀ (acc : LanesOut) (l cnt : Int) (avg : Option ℚ), l ≠ 0 → l ≠ 1 →
      applyRow acc (l, cnt, avg) = { acc with p2 := mkLaneEntry cnt avg }) := by
  refine ⟨?_, ?_, ?_, ?_⟩
  · intro jobs h
    unfold queue_status
    apply foldl_applyRow_p0
    intro r hr
    obtain ⟨j, hj, hact, hlane⟩ := groupRows_lane jobs r hr
    rw [← hlane]
    exact h j hj hact
  · intro jobs h
    unfold queue_status
    apply foldl_applyRow_p1
    intro r hr
    obtain ⟨j, hj, hact, hlane⟩ := groupRows_lane jobs r hr
    rw [← hlane]
    exact h j hj hact
  · intro cnt
    simp [mkLaneEntry]
  · intro acc l cnt avg h0 h1
    simp only [applyRow]
    rw [if_neg (lane_str2_ne_p0 l h0), if_neg (lane_str2_ne_p1 l h1)]

/-- C10 counterexample: with one active job on lane 7 and one on lane 2,
both lane groups map to the P2 key and the later assignment overwrites the
earlier one, so the P2 entry reports only the lane-2 group (count 1,
average 7) and the lane-7 job is reported nowhere — it is not "reported
under P2" as claimed (the total reported count is 1, not 2). -/
theorem C10_queue_status_counterexample :
    ([c10J7, c10J2].filter (fun j => isActiveState j.state)).length = 2 ∧
    queue_status [c10J7, c10J2] =
      { p0 := { count := 0, avgEtaSeconds := none }
        p1 := { count := 0, avgEtaSeconds := none }
        p2 := { count := 1, avgEtaSeconds := some 7 } } ∧
    (1 : Int) ≠ 2 := by
  refine ⟨rfl, ?_, by decide⟩
  have hA : (("P2" : String) = "P0") = False := eq_false (by decide)
  have hB : (("P2" : String) = "P1") = False := eq_false (by decide)
  have hC : (some (7 : ℚ) = none) = False := eq_false (by simp)
  norm_num [queue_status, groupRows, dedupAux, applyRow, mkLaneEntry,
    lane_str2, pyInt, isActiveState, c10J7, c10J2, hA, hB, hC,
    List.filterMap_cons, Option.bind]

/-- Witness for `C10_queue_status_amended`: with no active lane-0 jobs,
the P0 entry stays at count 0 and null average. -/
theorem C10_queue_status_amended_witness :
    (∀ j ∈ [c10J7, c10J2], isActiveState j.state = true → j.lane ≠ 0) ∧
    (queue_status [c10J7, c10J2]).p0 =
      { count := 0, avgEtaSeconds := none } := by
  have h : ∀ j ∈ [c10J7, c10J2], isActiveState j.state = true → j.lane ≠ 0 := by
    intro j hj _
    rcases List.mem_cons.mp hj with h1 | h2
    · rw [h1]
      decide
    · rcases List.mem_cons.mp h2 with h3 | h4
      · rw [h3]
        decide
      · simp at h4
  exact ⟨h, C10_queue_status_amended.1 [c10J7, c10J2] h⟩
